import Mathlib

/-!
Verification development for the resume-builder pipeline
(`main_file.py`): a photo-normalization routine
(`process_passport_photo`) and a document-assembly routine
(`generate_resume`).  The Python code is shallowly embedded:

* Machine integers are `Nat`/`Int`.  All of the float products the code
  takes `int(...)` of are exact or provably round to the intended
  rational: `int(h * 0.5) = h / 2` and `int(w * 0.25) = w / 4`,
  `int(w * 0.75) = 3 * w / 4` (0.5, 0.25, 0.75 are dyadic, the products
  are exact doubles for any image-scale operand), and
  `int(w * 0.3) = 3 * w / 10` (the relative error of the double nearest
  0.3 times any image-scale `w` stays below half an ulp of `3 * w / 10`,
  so the product rounds to the exact rational value whenever that value
  is an integer and cannot cross an integer boundary otherwise).
* Fallible steps return `Option` or a dedicated result type; `none`
  (or an explicit error constructor) models a raised Python exception.
* The external capabilities (OpenCV, python-docx, the filesystem) enter
  only through their documented observable behavior: the face detector
  is a list of boxes carried in the input description, `cv2.resize`
  raises `cv2.error` (assertion failure on an empty source) when the
  crop is empty, and the picture-embedding primitive of the document
  writer is given an explicit success flag.
-/

/-- An axis-aligned face box `(x, y, w, h)` in pixel coordinates, as
returned by `detectMultiScale`. -/
structure Box where
  x : Nat
  y : Nat
  w : Nat
  h : Nat
deriving DecidableEq

/-- Description of what the photo path resolves to: whether
`os.path.exists` succeeds, whether `cv2.imread` decodes it, the decoded
image dimensions, and the face boxes the fixed-parameter detector
returns on its grayscale version. -/
structure SourceImage where
  onDisk : Bool
  decodable : Bool
  h : Nat
  w : Nat
  faces : List Box
deriving DecidableEq

/-- The crop rectangle selected by `process_passport_photo`, rows
`[y1, y2)` and columns `[x1, x2)`.  Coordinates are integers so that
the clamping `max(0, ...)` of the Python code is modelled before any
truncation. -/
structure Rect where
  x1 : Int
  y1 : Int
  x2 : Int
  y2 : Int
deriving DecidableEq

/-- The crop-rectangle computation of `process_passport_photo`
(lines 44-59): with at least one detected face, pad the first box by
`int(h*0.5)` above and below and `int(w*0.3)` on each side and clamp to
the image; with no face, take the full height and the columns
`int(w*0.25) .. int(w*0.75)`. -/
def cropRect (imgH imgW : Nat) (faces : List Box) : Rect :=
  match faces with
  | b :: _ =>
      let padTop : Nat := b.h / 2
      let padBottom : Nat := b.h / 2
      let padLeft : Nat := 3 * b.w / 10
      let padRight : Nat := 3 * b.w / 10
      { x1 := max 0 ((b.x : Int) - (padLeft : Int))
        y1 := max 0 ((b.y : Int) - (padTop : Int))
        x2 := min (imgW : Int) ((b.x + b.w + padRight : Nat) : Int)
        y2 := min (imgH : Int) ((b.y + b.h + padBottom : Nat) : Int) }
  | [] =>
      { x1 := ((imgW / 4 : Nat) : Int)
        y1 := 0
        x2 := ((3 * imgW / 4 : Nat) : Int)
        y2 := (imgH : Int) }

/-- Outcome of `process_passport_photo`: `notFound` is the `return
False` paths (missing file or undecodable image, nothing written),
`written outH outW` is the `return True` path after `cv2.imwrite` of an
`outH x outW` image, and `cvError` is a propagated `cv2.error`. -/
inductive PhotoResult where
  | notFound
  | written (outH outW : Nat)
  | cvError
deriving DecidableEq

/-- Shallow embedding of `process_passport_photo` (lines 28-64).  The
existence and decode checks come first; then the crop rectangle is
selected from the detector output; `cv2.resize` raises (assertion
`!ssize.empty()`) when the numpy slice is empty, i.e. exactly when the
selected rectangle is degenerate; otherwise the crop is resized to
`(413, 531)` (width 413, height 531) and written out. -/
def process_passport_photo (src : SourceImage) : PhotoResult :=
  if src.onDisk = false then PhotoResult.notFound
  else if src.decodable = false then PhotoResult.notFound
  else if (cropRect src.h src.w src.faces).x1 < (cropRect src.h src.w src.faces).x2
          ∧ (cropRect src.h src.w src.faces).y1 < (cropRect src.h src.w src.faces).y2
       then PhotoResult.written 531 413
       else PhotoResult.cvError

/-- A field value of the profile record (§3 data model): scalar text or
the structured list of rows used for the education table. -/
inductive Value where
  | s (text : String)
  | l (rows : List (List String))
deriving DecidableEq

/-- Python truthiness of a record value: the empty string and the empty
list are falsy. -/
def Value.truthy : Value → Bool
  | Value.s t => !(t == "")
  | Value.l rows => !rows.isEmpty

/-- The Python comparison `content == "NA"`: only a string can equal
the string literal; a list compares unequal. -/
def Value.isNA : Value → Bool
  | Value.s t => t == "NA"
  | Value.l _ => false

/-- Whether the value is a Python `list` (`isinstance(content, list)`). -/
def Value.isList : Value → Bool
  | Value.s _ => false
  | Value.l _ => true

/-- The presence test used by the dynamic-section filter (line 109):
kept iff the value is not the `NA` marker and is truthy. -/
def present (v : Value) : Bool := !v.isNA && v.truthy

/-- A profile record: field names with values, in insertion order. -/
abbrev Rec := List (String × Value)

/-- Python `dict.get(key, default)` on a record (keys are unique in a
dict; the first match is taken). -/
def pyDictGet (r : Rec) (key : String) (dflt : Value) : Value :=
  match r with
  | [] => dflt
  | (k, v) :: rest => if k == key then v else pyDictGet rest key dflt

/-- Python `"\n" in s`. -/
def containsChar (s : String) (c : Char) : Bool := s.data.contains c

/-- Python `s.upper()` (ASCII field names). -/
def pyUpper (s : String) : String := String.mk (s.data.map Char.toUpper)

/-- Python `s.replace(" ", "_")` (single-character pattern). -/
def replaceSpaces (s : String) : String :=
  String.mk (s.data.map (fun c => if c = ' ' then '_' else c))

/-- One character of the Python `repr` of a string, under the given
quote character: backslash, the active quote, and the common control
characters are escaped (the `\xNN` escapes for other nonprintables are
not needed for the record domain handled here). -/
def pyEscapeChar (quote : Char) (c : Char) : String :=
  if c = '\\' then "\\\\"
  else if c = quote then String.mk ['\\', quote]
  else if c = '\n' then "\\n"
  else if c = '\r' then "\\r"
  else if c = '\t' then "\\t"
  else String.mk [c]

/-- Python `repr` of a string: double-quoted when the string contains a
single quote but no double quote, single-quoted otherwise. -/
def pyReprStr (s : String) : String :=
  let squote : Char := Char.ofNat 39
  let dquote : Char := Char.ofNat 34
  let q : Char := if s.data.contains squote && !(s.data.contains dquote)
                  then dquote else squote
  String.mk [q] ++ String.join (s.data.map (pyEscapeChar q)) ++ String.mk [q]

/-- Python `str` of a list of rows of strings, e.g.
a one-row one-cell list prints as a bracketed, quoted nest. -/
def pyReprRows (rows : List (List String)) : String :=
  "[" ++ String.intercalate ", "
          (rows.map (fun row =>
            "[" ++ String.intercalate ", " (row.map pyReprStr) ++ "]"))
      ++ "]"

/-- Python `str(content)` / `f"..."` interpolation of a record value. -/
def pyStr : Value → String
  | Value.s t => t
  | Value.l rows => pyReprRows rows

/-- The header contact keys (line 82). -/
def contact_keys : List String := ["Email", "Phone", "Address", "LinkedIn"]

/-- The fields already rendered in the header (line 105). -/
def ignore_keys : List String :=
  ["Full Name", "Email", "Phone", "Address", "LinkedIn", "Photo Path"]

/-- The fixed table header texts (line 124), rendered bold. -/
def table_headers : List String := ["Degree/Course", "Institution", "Year", "Grade/CGPA"]

/-- The contact lines of the header (lines 82-86): for each contact key
in order, `val = personal_info.get(key, "NA")`, and a paragraph with
the interpolated value is added iff `val != "NA"`. -/
def contactLines (info : Rec) : List String :=
  contact_keys.filterMap (fun k =>
    let v := pyDictGet info k (Value.s "NA")
    if v.isNA then none else some (pyStr v))

/-- The right header cell: either the embedded processed photo
(`run.add_picture`, display width 1.2 inches) or a literal text run. -/
inductive PhotoCell where
  | picture
  | text (s : String)
deriving DecidableEq

/-- A block of the rendered document.  `headerTable` is the two-column
header table (name in large bold type, contact lines, photo cell);
`heading` is a level-1 heading with the bottom border added by
`add_bottom_border`; `table` is a grid table whose first row is the
bold header row; `para` is a paragraph, `bulleted` when its style is
set to the list-bullet style. -/
inductive Block where
  | headerTable (name : String) (contacts : List String) (photo : PhotoCell)
  | spacer
  | heading (title : String)
  | table (rows : List (List String))
  | para (text : String) (bulleted : Bool)
deriving DecidableEq

/-- The four cells copied from one education row (lines 132-135):
`edu_row[0] .. edu_row[3]`; a shorter row raises `IndexError`
(modelled as `none`), extra cells are ignored. -/
def tableRow4 (r : List String) : Option (List String) :=
  match r with
  | a :: b :: c :: d :: _ => some [a, b, c, d]
  | _ => none

/-- The data rows of the education table, in list order (lines
130-135); `none` when some row raises `IndexError`. -/
def tableRows : List (List String) → Option (List (List String))
  | [] => some []
  | r :: rest =>
      match tableRow4 r, tableRows rest with
      | some r4, some rs => some (r4 :: rs)
      | _, _ => none

/-- The blocks emitted for one record field by the dynamic-section loop
body (lines 107-142): skip when the key is ignored or the value fails
the presence test; otherwise a bordered heading, then either the
education table (only when the key equals `"Education"` and the value
is a list: line 117) followed by a spacer, or a paragraph of the
value's text form, bulleted when that text contains a newline. -/
def renderField (k : String) (v : Value) : Option (List Block) :=
  if ignore_keys.contains k || v.isNA || !v.truthy then some []
  else
    match v with
    | Value.l rows =>
        if k == "Education" then
          match tableRows rows with
          | some data =>
              some [Block.heading (pyUpper k),
                    Block.table (table_headers :: data),
                    Block.spacer]
          | none => none
        else
          some [Block.heading (pyUpper k),
                Block.para (pyStr v) (containsChar (pyStr v) '\n')]
    | Value.s t =>
        some [Block.heading (pyUpper k),
              Block.para t (containsChar t '\n')]

/-- The dynamic-section loop (lines 107-142) over the whole record, in
iteration order; `none` models a propagated exception. -/
def sectionBlocks : Rec → Option (List Block)
  | [] => some []
  | (k, v) :: rest =>
      match renderField k v, sectionBlocks rest with
      | some bs, some rs => some (bs ++ rs)
      | _, _ => none

/-- Outcome of `generate_resume`: either the document was saved (with
its block list, output filename, and whether the transient photo file
is still on disk afterwards), or an exception propagated (again with
the state of the transient file at that moment). -/
inductive AsmOutcome where
  | saved (blocks : List Block) (filename : String) (tempFileLeft : Bool)
  | raised (tempFileLeft : Bool)
deriving DecidableEq

/-- Whether the transient normalized-photo file is on disk after the
outcome. -/
def AsmOutcome.tempLeft : AsmOutcome → Bool
  | AsmOutcome.saved _ _ t => t
  | AsmOutcome.raised t => t

/-- The tail of `generate_resume` after the photo cell is settled:
the spacer, the dynamic sections (whose exceptions propagate), and the
save under `<Full Name with spaces replaced>_Resume.docx` (lines
102-147).  At this point the transient photo file is no longer on disk
on every caller path.  The dead branch where the filename lookup hits a
list models the `AttributeError` of `replace` on a list. -/
def finishDoc (info : Rec) (nm : String) (contacts : List String)
    (pc : PhotoCell) : AsmOutcome :=
  match sectionBlocks info with
  | none => AsmOutcome.raised false
  | some bs =>
      match pyDictGet info "Full Name" (Value.s "Resume") with
      | Value.l _ => AsmOutcome.raised false
      | Value.s t =>
          AsmOutcome.saved
            (Block.headerTable nm contacts pc :: Block.spacer :: bs)
            (replaceSpaces t ++ "_Resume.docx")
            false

/-- Shallow embedding of `generate_resume` (lines 66-147).
`photo` describes what `photo_path` resolves to (`none` for a falsy
path), and `addPictureOk` is whether the external `run.add_picture`
call on the freshly written transient file succeeds.  Paths:

* a list-valued name makes `add_run` raise before any photo work;
* a falsy photo path or a `False` from `process_passport_photo` takes
  the placeholder branch, adding the literal text run;
* an exception inside `process_passport_photo` propagates before the
  transient file is written;
* on normalization success the transient file exists; it is removed
  (line 98) only after `add_picture` returns, so a raising
  `add_picture` leaves it on disk. -/
def generate_resume (info : Rec) (photo : Option SourceImage)
    (addPictureOk : Bool) : AsmOutcome :=
  match pyDictGet info "Full Name" (Value.s "") with
  | Value.l _ => AsmOutcome.raised false
  | Value.s nm =>
      let contacts := contactLines info
      match photo with
      | none => finishDoc info nm contacts (PhotoCell.text "[No Photo]")
      | some src =>
          match process_passport_photo src with
          | PhotoResult.written _ _ =>
              if addPictureOk then finishDoc info nm contacts PhotoCell.picture
              else AsmOutcome.raised true
          | PhotoResult.notFound =>
              finishDoc info nm contacts (PhotoCell.text "[No Photo]")
          | PhotoResult.cvError => AsmOutcome.raised false

/-- The section-heading texts of a block list, in order. -/
def headingsOf (bs : List Block) : List String :=
  bs.filterMap (fun b =>
    match b with
    | Block.heading t => some t
    | _ => none)

/-- Whether a block list contains a table block. -/
def hasTable (bs : List Block) : Bool :=
  bs.any (fun b =>
    match b with
    | Block.table _ => true
    | _ => false)

/-- The tabular shape in the words of the spec (§3): the value is an
ordered list of equal-length rows. -/
def tabularShape : Value → Bool
  | Value.s _ => false
  | Value.l rows => rows.all (fun r => r.length = (rows.headD []).length)

/-- The contact-line rule in the words of the claim: a line is emitted
iff the value passes the presence test, i.e. is truthy and is not the
`NA` marker.  To be compared with `contactLines`, which embeds the
code. -/
def contactLinesClaimed (info : Rec) : List String :=
  contact_keys.filterMap (fun k =>
    let v := pyDictGet info k (Value.s "NA")
    if v.truthy && !v.isNA then some (pyStr v) else none)

/-- Helper: for a readable, decodable source, `process_passport_photo`
reduces to the emptiness test of the selected crop rectangle. -/
theorem process_eq_ite (src : SourceImage) (h1 : src.onDisk = true)
    (h2 : src.decodable = true) :
    process_passport_photo src =
      if (cropRect src.h src.w src.faces).x1 < (cropRect src.h src.w src.faces).x2
         ∧ (cropRect src.h src.w src.faces).y1 < (cropRect src.h src.w src.faces).y2
      then PhotoResult.written 531 413 else PhotoResult.cvError := by
  unfold process_passport_photo
  rw [h1, h2]
  simp

/-- Helper: bounds of the padded, clamped crop rectangle on the face
path, given the first detected box. -/
theorem cropRect_face_bounds (imgH imgW : Nat) (b : Box) (rest : List Box)
    (hw : 1 ≤ b.w) (hh : 1 ≤ b.h)
    (hx : b.x + b.w ≤ imgW) (hy : b.y + b.h ≤ imgH) :
    0 ≤ (cropRect imgH imgW (b :: rest)).x1
    ∧ 0 ≤ (cropRect imgH imgW (b :: rest)).y1
    ∧ (cropRect imgH imgW (b :: rest)).x2 ≤ (imgW : Int)
    ∧ (cropRect imgH imgW (b :: rest)).y2 ≤ (imgH : Int)
    ∧ (cropRect imgH imgW (b :: rest)).x1 < (cropRect imgH imgW (b :: rest)).x2
    ∧ (cropRect imgH imgW (b :: rest)).y1 < (cropRect imgH imgW (b :: rest)).y2 := by
  simp only [cropRect]
  refine ⟨?_, ?_, ?_, ?_, ?_, ?_⟩ <;> omega

/-- **C6**: whenever the detector returns at least one face box (within
the image, with positive extent), the padded crop rectangle is clamped
inside the image bounds — no negative coordinates, no extent past the
edges — it is nonempty, and the written output has exactly the fixed
413x531 target resolution. -/
theorem c6_face_crop_clamped (src : SourceImage) (b : Box) (rest : List Box)
    (hf : src.faces = b :: rest)
    (hw : 1 ≤ b.w) (hh : 1 ≤ b.h)
    (hx : b.x + b.w ≤ src.w) (hy : b.y + b.h ≤ src.h)
    (h1 : src.onDisk = true) (h2 : src.decodable = true) :
    0 ≤ (cropRect src.h src.w src.faces).x1
    ∧ 0 ≤ (cropRect src.h src.w src.faces).y1
    ∧ (cropRect src.h src.w src.faces).x2 ≤ (src.w : Int)
    ∧ (cropRect src.h src.w src.faces).y2 ≤ (src.h : Int)
    ∧ (cropRect src.h src.w src.faces).x1 < (cropRect src.h src.w src.faces).x2
    ∧ (cropRect src.h src.w src.faces).y1 < (cropRect src.h src.w src.faces).y2
    ∧ process_passport_photo src = PhotoResult.written 531 413 := by
  have hb := cropRect_face_bounds src.h src.w b rest hw hh hx hy
  rw [hf]
  refine ⟨hb.1, hb.2.1, hb.2.2.1, hb.2.2.2.1, hb.2.2.2.2.1, hb.2.2.2.2.2, ?_⟩
  rw [process_eq_ite src h1 h2, hf]
  exact if_pos ⟨hb.2.2.2.2.1, hb.2.2.2.2.2⟩

/-- **C6 witness**: a 10x10 image with one face box at (2,2) of size
4x4; the clamped crop is columns [1,7), rows [0,8), and the output is
written at 413x531. -/
theorem c6_witness :
    0 ≤ (cropRect 10 10 [Box.mk 2 2 4 4]).x1
    ∧ 0 ≤ (cropRect 10 10 [Box.mk 2 2 4 4]).y1
    ∧ (cropRect 10 10 [Box.mk 2 2 4 4]).x2 ≤ ((10 : Nat) : Int)
    ∧ (cropRect 10 10 [Box.mk 2 2 4 4]).y2 ≤ ((10 : Nat) : Int)
    ∧ (cropRect 10 10 [Box.mk 2 2 4 4]).x1 < (cropRect 10 10 [Box.mk 2 2 4 4]).x2
    ∧ (cropRect 10 10 [Box.mk 2 2 4 4]).y1 < (cropRect 10 10 [Box.mk 2 2 4 4]).y2
    ∧ process_passport_photo (SourceImage.mk true true 10 10 [Box.mk 2 2 4 4])
        = PhotoResult.written 531 413 :=
  c6_face_crop_clamped (SourceImage.mk true true 10 10 [Box.mk 2 2 4 4])
    (Box.mk 2 2 4 4) [] rfl (by decide) (by decide) (by decide) (by decide) rfl rfl

/-- **C7**: with zero detected faces the fallback crop is exactly the
vertical full height and the horizontal band from the floor of a
quarter of the width to the floor of three quarters of the width. -/
theorem c7_fallback_crop (src : SourceImage) (hf : src.faces = []) :
    cropRect src.h src.w src.faces =
      Rect.mk ((src.w / 4 : Nat) : Int) 0 ((3 * src.w / 4 : Nat) : Int) (src.h : Int) := by
  rw [hf]
  rfl

/-- **C7 witness**: on an 8-wide, 5-high image with no faces the crop
is columns [2,6), rows [0,5). -/
theorem c7_witness :
    cropRect 5 8 ([] : List Box) = Rect.mk 2 0 6 5 :=
  c7_fallback_crop (SourceImage.mk true true 5 8 []) rfl

/-- **C3 counterexample**: a decodable 1-pixel-wide image with zero
detected faces makes the fallback crop empty (columns [0,0)), and the
resize step raises a `cv2.error` instead of completing — refuting the
claim that normalization never raises once the read check passes,
including width-1 images. -/
theorem c3_cex :
    (SourceImage.mk true true 5 1 []).onDisk = true
    ∧ (SourceImage.mk true true 5 1 []).decodable = true
    ∧ process_passport_photo (SourceImage.mk true true 5 1 []) = PhotoResult.cvError := by
  decide

/-- **C3 (amended)**: for a readable, decodable image, normalization
completes with the fixed-size written output whenever the selected crop
is nonempty: with zero detected faces this needs image width at least 2
(the 25 to 75 percent band of a width-1 image is empty and the resize
of the empty crop raises); with a detected face it holds whenever the
first box lies within the image with positive extent. -/
theorem c3_no_raise (src : SourceImage)
    (h1 : src.onDisk = true) (h2 : src.decodable = true) (hh : 1 ≤ src.h)
    (hfb : src.faces = [] → 2 ≤ src.w)
    (hfc : ∀ b rest, src.faces = b :: rest →
      1 ≤ b.w ∧ 1 ≤ b.h ∧ b.x + b.w ≤ src.w ∧ b.y + b.h ≤ src.h) :
    process_passport_photo src = PhotoResult.written 531 413 := by
  rw [process_eq_ite src h1 h2]
  match hface : src.faces with
  | [] =>
      have hw2 := hfb hface
      rw [if_pos]
      simp only [cropRect]
      omega
  | b :: rest =>
      have hb := hfc b rest hface
      have hbounds := cropRect_face_bounds src.h src.w b rest hb.1 hb.2.1 hb.2.2.1 hb.2.2.2
      exact if_pos ⟨hbounds.2.2.2.2.1, hbounds.2.2.2.2.2⟩

/-- **C3 witness**: a decodable 10x10 image with zero faces completes
with the 413x531 output. -/
theorem c3_witness :
    process_passport_photo (SourceImage.mk true true 10 10 []) = PhotoResult.written 531 413 :=
  c3_no_raise (SourceImage.mk true true 10 10 []) rfl rfl (by decide)
    (fun _ => by decide) (fun b rest h => by simp at h)

/-- Helper: every outcome `finishDoc` produces reports the transient
photo file as already gone. -/
theorem finishDoc_tempLeft (info : Rec) (nm : String) (contacts : List String)
    (pc : PhotoCell) : (finishDoc info nm contacts pc).tempLeft = false := by
  unfold finishDoc
  split
  · rfl
  · split
    · rfl
    · rfl

/-- **C2 counterexample**: with a decodable photo that normalizes
successfully, a raising `add_picture` (the consuming document-assembly
step) exits with the transient file still on disk: the removal on line
98 is only reached after `add_picture` returns, with no
`try`/`finally`. -/
theorem c2_cex :
    process_passport_photo (SourceImage.mk true true 10 10 [])
        = PhotoResult.written 531 413
    ∧ generate_resume [] (some (SourceImage.mk true true 10 10 [])) false
        = AsmOutcome.raised true := by
  constructor
  · decide
  · rfl

/-- **C2 (amended)**: on the success path, the no-photo path, and the
normalization-failure path — that is, whenever the consuming
`add_picture` step does not raise — the transient normalized-photo
file no longer exists once `generate_resume` returns, normally or with
an error. -/
theorem c2_temp_cleanup (info : Rec) (photo : Option SourceImage) :
    (generate_resume info photo true).tempLeft = false := by
  unfold generate_resume
  split
  · rfl
  · split
    · exact finishDoc_tempLeft ..
    · split
      · rw [if_pos rfl]
        exact finishDoc_tempLeft ..
      · exact finishDoc_tempLeft ..
      · rfl

/-- Helper: a skip-style `filterMap` is a `filter` followed by a
`map`. -/
theorem filterMap_skip_eq_filter_map (l : List String) (p : String → Bool)
    (f : String → String) :
    (l.filterMap fun k => if p k then none else some (f k))
      = (l.filter fun k => !p k).map f := by
  induction l with
  | nil => rfl
  | cons a l ih => cases h : p a <;> simp [h, ih]

/-- **C4 counterexample**: a record whose `Email` field is present with
the empty string.  The code emits an (empty) contact line for it, while
the claimed presence rule — non-empty and not `NA` — emits none. -/
theorem c4_cex :
    contactLines [("Email", Value.s "")] = [""]
    ∧ contactLinesClaimed [("Email", Value.s "")] = [] := by
  decide

/-- **C4 (amended)**: a contact line is emitted exactly for the contact
keys, in their fixed order, whose value (defaulting to the `NA` marker
when the key is absent) differs from the `NA` marker, carrying the
value's interpolated text; emptiness is not tested, so a present
empty-string value yields an empty contact line. -/
theorem c4_contact_lines (info : Rec) :
    contactLines info =
      (contact_keys.filter fun k => !(pyDictGet info k (Value.s "NA")).isNA).map
        (fun k => pyStr (pyDictGet info k (Value.s "NA"))) := by
  unfold contactLines
  exact filterMap_skip_eq_filter_map contact_keys
    (fun k => (pyDictGet info k (Value.s "NA")).isNA)
    (fun k => pyStr (pyDictGet info k (Value.s "NA")))

/-- **C10**: an empty-list value is falsy, so it fails the presence
check and the field is skipped entirely by the dynamic-section loop:
whatever its name, a field carrying the empty list contributes no
heading and no table, and the record renders exactly as if the field
were absent. -/
theorem c10_empty_list_skipped :
    present (Value.l []) = false
    ∧ ∀ (k : String) (pre post : Rec),
        sectionBlocks (pre ++ (k, Value.l []) :: post) = sectionBlocks (pre ++ post) := by
  refine ⟨rfl, ?_⟩
  intro k pre post
  induction pre with
  | nil =>
      simp only [List.nil_append]
      have hrf : renderField k (Value.l []) = some [] := by
        unfold renderField
        rw [if_pos]
        simp [Value.truthy]
      show (match renderField k (Value.l []), sectionBlocks post with
            | some bs, some rs => some (bs ++ rs)
            | _, _ => none) = sectionBlocks post
      rw [hrf]
      cases hsp : sectionBlocks post <;> simp
  | cons kv rest ih =>
      simp only [List.cons_append]
      unfold sectionBlocks
      rw [ih]

/-- Helper: copying the four cells of a row of width exactly 4
reproduces the row. -/
theorem tableRow4_of_len4 (r : List String) (h : r.length = 4) :
    tableRow4 r = some r := by
  cases r with
  | nil => simp at h
  | cons a r1 =>
    cases r1 with
    | nil => simp at h
    | cons b r2 =>
      cases r2 with
      | nil => simp at h
      | cons c r3 =>
        cases r3 with
        | nil => simp at h
        | cons d r4 =>
          cases r4 with
          | nil => rfl
          | cons e r5 => simp at h

/-- Helper: the data rows of the education table are copied verbatim
when every row has width exactly 4. -/
theorem tableRows_of_len4 (rows : List (List String))
    (h : ∀ r ∈ rows, r.length = 4) : tableRows rows = some rows := by
  induction rows with
  | nil => rfl
  | cons r rest ih =>
      have h1 : tableRow4 r = some r := tableRow4_of_len4 r (h r (by simp))
      have h2 : tableRows rest = some rest := ih (fun x hx => h x (by simp [hx]))
      unfold tableRows
      rw [h1, h2]

/-- **C8**: a rendered tabular field with N data rows of width 4 emits
a table block of exactly N+1 rows: the fixed bold 4-cell header row
followed by the data rows verbatim, in their original order, every row
having exactly 4 columns. -/
theorem c8_table_shape (rows : List (List String))
    (hne : rows ≠ []) (h4 : ∀ r ∈ rows, r.length = 4) :
    renderField "Education" (Value.l rows)
        = some [Block.heading "EDUCATION",
                Block.table (table_headers :: rows), Block.spacer]
    ∧ (table_headers :: rows).length = rows.length + 1
    ∧ ∀ r ∈ table_headers :: rows, r.length = 4 := by
  refine ⟨?_, by simp, ?_⟩
  · match rows, hne with
    | r0 :: rest, _ =>
        unfold renderField
        rw [if_neg (by simp [Value.truthy, Value.isNA, ignore_keys])]
        simp [tableRows_of_len4 (r0 :: rest) h4,
              (by decide : pyUpper "Education" = "EDUCATION")]
  · intro r hr
    rcases List.mem_cons.mp hr with h | h
    · subst h; decide
    · exact h4 r h

/-- **C8 witness**: one data row of width 4 yields the header row plus
that row. -/
theorem c8_witness :
    renderField "Education" (Value.l [["a", "b", "c", "d"]])
        = some [Block.heading "EDUCATION",
                Block.table (table_headers :: [["a", "b", "c", "d"]]), Block.spacer] :=
  (c8_table_shape [["a", "b", "c", "d"]] (by decide) (by decide)).1

/-- Helper: a row with at least 4 cells does not raise on cell copy. -/
theorem tableRow4_some_of_4le (r : List String) (h : 4 ≤ r.length) :
    ∃ r4, tableRow4 r = some r4 := by
  cases r with
  | nil => simp at h
  | cons a r1 =>
    cases r1 with
    | nil => simp at h
    | cons b r2 =>
      cases r2 with
      | nil => simp at h
      | cons c r3 =>
        cases r3 with
        | nil => simp at h
        | cons d r4 => exact ⟨[a, b, c, d], rfl⟩

/-- Helper: the education table body succeeds when every row has at
least 4 cells. -/
theorem tableRows_some_of_4le (rows : List (List String))
    (h : ∀ r ∈ rows, 4 ≤ r.length) : ∃ data, tableRows rows = some data := by
  induction rows with
  | nil => exact ⟨[], rfl⟩
  | cons r rest ih =>
      obtain ⟨r4, hr4⟩ := tableRow4_some_of_4le r (h r (by simp))
      obtain ⟨data, hdata⟩ := ih (fun x hx => h x (by simp [hx]))
      refine ⟨r4 :: data, ?_⟩
      unfold tableRows
      rw [hr4, hdata]

/-- **C1 counterexample**: the field `Certifications`, absent from the
header ignore set, present, and carrying a value of tabular shape (one
row of four cells), is rendered without any table block — refuting the
claim that the structural shape alone triggers tabular rendering. -/
theorem c1_cex :
    tabularShape (Value.l [["a", "b", "c", "d"]]) = true
    ∧ ignore_keys.contains "Certifications" = false
    ∧ present (Value.l [["a", "b", "c", "d"]]) = true
    ∧ (renderField "Certifications" (Value.l [["a", "b", "c", "d"]])).map hasTable
        = some false := by
  decide

/-- **C1 (amended)**: for a present, non-header field (whose rows, if
any, are wide enough not to raise), the emitted blocks contain a table
iff the field name is the literal `"Education"` and the value is a
list: the tabular-rendering decision is a hardcoded field-name
comparison conjoined with the structural `isinstance` check, not the
structural shape alone. -/
theorem c1_table_trigger (k : String) (v : Value)
    (hk : ignore_keys.contains k = false)
    (hna : v.isNA = false) (ht : v.truthy = true)
    (hrows : ∀ rows, v = Value.l rows → ∀ r ∈ rows, 4 ≤ r.length) :
    (renderField k v).map hasTable = some (k == "Education" && v.isList) := by
  unfold renderField
  rw [if_neg (by rw [hk, hna, ht]; decide)]
  match v with
  | Value.s t => simp [hasTable, Value.isList]
  | Value.l rows =>
      cases hke : k == "Education" with
      | true =>
          obtain ⟨data, hdata⟩ := tableRows_some_of_4le rows (hrows rows rfl)
          simp [hdata, hasTable, Value.isList]
      | false =>
          simp [hasTable, Value.isList]

/-- **C1 (amended) witness**: the counterexample field again — a
non-Education field with a list value renders without a table. -/
theorem c1_witness :
    (renderField "Certifications" (Value.l [["a", "b", "c", "d"]])).map hasTable
      = some (("Certifications" == "Education") && (Value.l [["a", "b", "c", "d"]]).isList) :=
  c1_table_trigger "Certifications" (Value.l [["a", "b", "c", "d"]])
    (by decide) rfl rfl
    (fun rows hrows => by cases hrows; decide)

/-- Helper: inverting `finishDoc` on a saved outcome recovers the
dynamic-section blocks and the block layout. -/
theorem finishDoc_saved_inv (info : Rec) (nm : String) (contacts : List String)
    (pc : PhotoCell) (blocks : List Block) (fn : String) (tl : Bool)
    (h : finishDoc info nm contacts pc = AsmOutcome.saved blocks fn tl) :
    ∃ bs, sectionBlocks info = some bs
      ∧ blocks = Block.headerTable nm contacts pc :: Block.spacer :: bs := by
  unfold finishDoc at h
  cases hsec : sectionBlocks info with
  | none => rw [hsec] at h; exact AsmOutcome.noConfusion h
  | some bs =>
      rw [hsec] at h
      cases hname : pyDictGet info "Full Name" (Value.s "Resume") with
      | l rows => rw [hname] at h; exact AsmOutcome.noConfusion h
      | s t =>
          rw [hname] at h
          cases h
          exact ⟨bs, rfl, rfl⟩

/-- Helper: any saved outcome of `generate_resume` is a header table
and a spacer followed by the dynamic-section blocks of the record. -/
theorem generate_saved_sections (info : Rec) (photo : Option SourceImage)
    (apOk : Bool) (blocks : List Block) (fn : String) (tl : Bool)
    (h : generate_resume info photo apOk = AsmOutcome.saved blocks fn tl) :
    ∃ nm contacts pc bs, sectionBlocks info = some bs
      ∧ blocks = Block.headerTable nm contacts pc :: Block.spacer :: bs := by
  unfold generate_resume at h
  cases hname : pyDictGet info "Full Name" (Value.s "") with
  | l rows => rw [hname] at h; exact AsmOutcome.noConfusion h
  | s nm =>
      rw [hname] at h
      cases photo with
      | none =>
          obtain ⟨bs, h1, h2⟩ := finishDoc_saved_inv info nm (contactLines info)
            (PhotoCell.text "[No Photo]") blocks fn tl h
          exact ⟨nm, contactLines info, PhotoCell.text "[No Photo]", bs, h1, h2⟩
      | some src =>
          have h2 : (match process_passport_photo src with
                     | PhotoResult.written outH outW =>
                         if apOk = true then
                           finishDoc info nm (contactLines info) PhotoCell.picture
                         else AsmOutcome.raised true
                     | PhotoResult.notFound =>
                         finishDoc info nm (contactLines info) (PhotoCell.text "[No Photo]")
                     | PhotoResult.cvError => AsmOutcome.raised false)
                      = AsmOutcome.saved blocks fn tl := h
          cases hpr : process_passport_photo src with
          | written oh ow =>
              rw [hpr] at h2
              cases hap : apOk with
              | true =>
                  rw [hap] at h2
                  obtain ⟨bs, h1, hb⟩ := finishDoc_saved_inv info nm (contactLines info)
                    PhotoCell.picture blocks fn tl h2
                  exact ⟨nm, contactLines info, PhotoCell.picture, bs, h1, hb⟩
              | false =>
                  rw [hap] at h2
                  exact AsmOutcome.noConfusion h2
          | notFound =>
              rw [hpr] at h2
              obtain ⟨bs, h1, hb⟩ := finishDoc_saved_inv info nm (contactLines info)
                (PhotoCell.text "[No Photo]") blocks fn tl h2
              exact ⟨nm, contactLines info, PhotoCell.text "[No Photo]", bs, h1, hb⟩
          | cvError => rw [hpr] at h2; exact AsmOutcome.noConfusion h2

/-- **C5**: when the photo path does not resolve to readable, decodable
image data, normalization returns the boolean failure (no output
written), and document assembly still completes, rendering the literal
no-photo placeholder text in the header's right column and saving the
document. -/
theorem c5_placeholder (src : SourceImage) (info : Rec) (nm nm2 : String)
    (bs : List Block) (apOk : Bool)
    (hbad : src.onDisk = false ∨ src.decodable = false)
    (hname : pyDictGet info "Full Name" (Value.s "") = Value.s nm)
    (hname2 : pyDictGet info "Full Name" (Value.s "Resume") = Value.s nm2)
    (hsec : sectionBlocks info = some bs) :
    process_passport_photo src = PhotoResult.notFound
    ∧ generate_resume info (some src) apOk =
        AsmOutcome.saved
          (Block.headerTable nm (contactLines info) (PhotoCell.text "[No Photo]")
            :: Block.spacer :: bs)
          (replaceSpaces nm2 ++ "_Resume.docx") false := by
  have hnf : process_passport_photo src = PhotoResult.notFound := by
    unfold process_passport_photo
    rcases hbad with hb | hb <;> simp [hb]
  refine ⟨hnf, ?_⟩
  unfold generate_resume finishDoc
  simp only [hname, hnf, hsec, hname2]

/-- **C5 witness**: a photo path whose file does not exist, with a
one-field record; the document is saved with the placeholder. -/
theorem c5_witness :
    process_passport_photo (SourceImage.mk false true 3 3 []) = PhotoResult.notFound
    ∧ generate_resume [("Full Name", Value.s "Jo")]
        (some (SourceImage.mk false true 3 3 [])) true =
        AsmOutcome.saved
          (Block.headerTable "Jo" (contactLines [("Full Name", Value.s "Jo")])
             (PhotoCell.text "[No Photo]") :: Block.spacer :: ([] : List Block))
          (replaceSpaces "Jo" ++ "_Resume.docx") false :=
  c5_placeholder (SourceImage.mk false true 3 3 []) [("Full Name", Value.s "Jo")]
    "Jo" "Jo" [] true (Or.inl rfl) rfl rfl rfl

/-- Helper: `headingsOf` distributes over append. -/
theorem headingsOf_append (a b : List Block) :
    headingsOf (a ++ b) = headingsOf a ++ headingsOf b := by
  simp [headingsOf]

/-- The dynamic-section keep predicate of the claim: the field is not a
header field and passes the presence test. -/
def keepField (kv : String × Value) : Bool :=
  !ignore_keys.contains kv.1 && present kv.2

/-- Helper: the keep predicate is the negation of the skip guard of
line 109. -/
theorem keep_eq_not_guard (k : String) (v : Value) :
    keepField (k, v) = !(ignore_keys.contains k || v.isNA || !v.truthy) := by
  simp only [keepField, present]
  cases ignore_keys.contains k <;> cases v.isNA <;> cases v.truthy <;> rfl

/-- Helper: the headings of the blocks of one rendered field — one
uppercased heading when kept, nothing when skipped. -/
theorem renderField_headings (k : String) (v : Value) (bs : List Block)
    (h : renderField k v = some bs) :
    headingsOf bs = if keepField (k, v) then [pyUpper k] else [] := by
  unfold renderField at h
  rw [keep_eq_not_guard k v]
  cases hg : (ignore_keys.contains k || v.isNA || !v.truthy) with
  | true =>
      rw [if_pos hg] at h
      cases h
      rfl
  | false =>
      rw [if_neg (by rw [hg]; exact Bool.false_ne_true)] at h
      cases v with
      | s t => cases h; rfl
      | l rows =>
          have h2 : (if (k == "Education") = true then
                       (match tableRows rows with
                        | some data =>
                            some [Block.heading (pyUpper k),
                                  Block.table (table_headers :: data), Block.spacer]
                        | none => none)
                     else
                       some [Block.heading (pyUpper k),
                             Block.para (pyStr (Value.l rows))
                               (containsChar (pyStr (Value.l rows)) '\n')])
                      = some bs := h
          by_cases hke : (k == "Education") = true
          · rw [if_pos hke] at h2
            cases htr : tableRows rows with
            | none => rw [htr] at h2; exact Option.noConfusion h2
            | some data => rw [htr] at h2; cases h2; rfl
          · rw [if_neg hke] at h2
            cases h2
            rfl

/-- Helper: the heading sequence of the dynamic sections is the stable
filter of the record by the keep predicate, mapped to uppercase. -/
theorem sectionBlocks_headings (r : Rec) (bs : List Block)
    (h : sectionBlocks r = some bs) :
    headingsOf bs = (r.filter keepField).map (fun kv => pyUpper kv.1) := by
  induction r generalizing bs with
  | nil =>
      unfold sectionBlocks at h
      cases h
      rfl
  | cons kv rest ih =>
      obtain ⟨k, v⟩ := kv
      have h' : (match renderField k v, sectionBlocks rest with
                 | some fb, some rs => some (fb ++ rs)
                 | _, _ => none) = some bs := h
      cases hrf : renderField k v with
      | none => rw [hrf] at h'; exact Option.noConfusion h'
      | some fb =>
          cases hsb : sectionBlocks rest with
          | none => rw [hrf, hsb] at h'; exact Option.noConfusion h'
          | some rs =>
              rw [hrf, hsb] at h'
              cases h'
              rw [headingsOf_append, renderField_headings k v fb hrf, ih rs hsb]
              cases hc : keepField (k, v) with
              | true => simp [List.filter_cons, hc]
              | false => simp [List.filter_cons, hc]

/-- **C9**: in every saved document, the sequence of dynamic section
headings is the stable filter of the record's field sequence — exactly
the non-header fields that pass the presence test, uppercased, in the
record's original iteration order, never re-sorted. -/
theorem c9_heading_order (info : Rec) (photo : Option SourceImage) (apOk : Bool)
    (blocks : List Block) (fn : String) (tl : Bool)
    (h : generate_resume info photo apOk = AsmOutcome.saved blocks fn tl) :
    headingsOf blocks = (info.filter keepField).map (fun kv => pyUpper kv.1) := by
  obtain ⟨nm, contacts, pc, bs, hsec, hb⟩ :=
    generate_saved_sections info photo apOk blocks fn tl h
  subst hb
  have hstep : headingsOf (Block.headerTable nm contacts pc :: Block.spacer :: bs)
      = headingsOf bs := rfl
  rw [hstep]
  exact sectionBlocks_headings info bs hsec

/-- **C9 witness**: a two-field record; only the non-header present
field contributes a heading, in order. -/
theorem c9_witness :
    headingsOf [Block.headerTable "Jo" [] (PhotoCell.text "[No Photo]"), Block.spacer,
                Block.heading "SKILLS", Block.para "x" false]
      = ([("Full Name", Value.s "Jo"), ("Skills", Value.s "x")].filter keepField).map
          (fun kv => pyUpper kv.1) :=
  c9_heading_order [("Full Name", Value.s "Jo"), ("Skills", Value.s "x")] none true
    [Block.headerTable "Jo" [] (PhotoCell.text "[No Photo]"), Block.spacer,
     Block.heading "SKILLS", Block.para "x" false]
    "Jo_Resume.docx" false (by decide)

